import Mathlib

/-!
Shallow embedding of the linux-wave configuration subsystem,
transcribed from internal/config/config.go.

External collaborators are passed as explicit parameters so that every
operation is a pure function of the configuration value and those
collaborators:
- statOk models os.Stat succeeding on a path (true when the file exists),
- env models os.Getenv as used by os.ExpandEnv (an unset variable reads
  as the empty string),
- home models os.UserHomeDir (an Except value, since the lookup can fail),
- readParse models the internal loadFromPath helper, i.e. os.ReadFile
  followed by yaml.Unmarshal into a destination Config; its error string
  carries the wrapped message of the helper.

Machine integers of the Go source are modelled as Int (all values in the
subsystem are small, far from any overflow), the float64 field as Rat
(the subsystem only compares it against 0 and 1), and fallible Go
functions as Except String.
-/

deriving instance DecidableEq for Except

namespace LinuxWave

/-- ServiceConfig: service-level settings (config.go lines 22-29). -/
structure ServiceConfig where
  Timeout : Int
  RetryAttempts : Int
  SocketPath : String
deriving DecidableEq

/-- LoggingConfig: logging settings (config.go lines 32-37). -/
structure LoggingConfig where
  Level : String
  Format : String
deriving DecidableEq

/-- AudioConfig: audio feedback settings (config.go lines 40-49). -/
structure AudioConfig where
  Enabled : Bool
  Volume : Int
  CustomSoundSuccess : String
  CustomSoundFailure : String
deriving DecidableEq

/-- SecurityConfig: security settings (config.go lines 52-61). -/
structure SecurityConfig where
  LivenessRequired : Bool
  MatchThreshold : Rat
  MaxAuthAttempts : Int
  LockoutDuration : Int
deriving DecidableEq

/-- Config: the complete linuxwave system configuration (config.go lines 14-19). -/
structure Config where
  Service : ServiceConfig
  Logging : LoggingConfig
  Audio : AudioConfig
  Security : SecurityConfig
deriving DecidableEq

/-- System-wide configuration file path (config.go line 65). -/
def systemConfigPath : String := "/etc/linux-wave/config.yaml"

/-- User configuration file path, relative to the home directory (config.go line 67). -/
def userConfigRelPath : String := ".config/linux-wave/config.yaml"

/-- The rational number 0.85 of the source, written in normalized
constructor form so that kernel reduction can evaluate comparisons on it;
the theorem rat085_def below identifies it with the scientific literal. -/
def rat085 : Rat := ⟨17, 20, by decide, by decide⟩

/-- The rational number 1.5, written in normalized constructor form; the
theorem rat15_def below identifies it with the scientific literal. -/
def rat15 : Rat := ⟨3, 2, by decide, by decide⟩

/-- DefaultConfig (config.go lines 73-97).  Every field value is transcribed
verbatim from the source, including the value "test" that the source
assigns to Logging.Format. -/
def DefaultConfig : Config :=
  { Service := { Timeout := 10
                 RetryAttempts := 3
                 SocketPath := "/run/linux-wave/auth.sock" }
    Logging := { Level := "INFO"
                 Format := "test" }
    Audio := { Enabled := true
               Volume := 50
               CustomSoundSuccess := ""
               CustomSoundFailure := "" }
    Security := { LivenessRequired := true
                  MatchThreshold := rat085
                  MaxAuthAttempts := 3
                  LockoutDuration := 300 } }

/-- A zero-valued Config, modelling the Go composite literal used as the
decode destination for each overlay file in Load (config.go lines 117 and 131). -/
def zeroConfig : Config :=
  { Service := { Timeout := 0, RetryAttempts := 0, SocketPath := "" }
    Logging := { Level := "", Format := "" }
    Audio := { Enabled := false, Volume := 0, CustomSoundSuccess := "", CustomSoundFailure := "" }
    Security := { LivenessRequired := false, MatchThreshold := 0, MaxAuthAttempts := 0, LockoutDuration := 0 } }

/-- mergeConfigs (config.go lines 184-237).  The Go function copies base into
result and then conditionally overwrites one field per if-statement; the copy
followed by the conditional assignment is rendered as one if-expression per
field, in the order of the source. -/
def mergeConfigs (base override : Config) : Config :=
  { Service :=
      { Timeout := if override.Service.Timeout ≠ 0 then override.Service.Timeout else base.Service.Timeout
        RetryAttempts := if override.Service.RetryAttempts ≠ 0 then override.Service.RetryAttempts else base.Service.RetryAttempts
        SocketPath := if override.Service.SocketPath ≠ "" then override.Service.SocketPath else base.Service.SocketPath }
    Logging :=
      { Level := if override.Logging.Level ≠ "" then override.Logging.Level else base.Logging.Level
        Format := if override.Logging.Format ≠ "" then override.Logging.Format else base.Logging.Format }
    Audio :=
      { Enabled := if override.Audio.Enabled ≠ base.Audio.Enabled then override.Audio.Enabled else base.Audio.Enabled
        Volume := if override.Audio.Volume ≠ 0 then override.Audio.Volume else base.Audio.Volume
        CustomSoundSuccess := if override.Audio.CustomSoundSuccess ≠ "" then override.Audio.CustomSoundSuccess else base.Audio.CustomSoundSuccess
        CustomSoundFailure := if override.Audio.CustomSoundFailure ≠ "" then override.Audio.CustomSoundFailure else base.Audio.CustomSoundFailure }
    Security :=
      { LivenessRequired := if override.Security.LivenessRequired ≠ base.Security.LivenessRequired then override.Security.LivenessRequired else base.Security.LivenessRequired
        MatchThreshold := if override.Security.MatchThreshold ≠ 0 then override.Security.MatchThreshold else base.Security.MatchThreshold
        MaxAuthAttempts := if override.Security.MaxAuthAttempts ≠ 0 then override.Security.MaxAuthAttempts else base.Security.MaxAuthAttempts
        LockoutDuration := if override.Security.LockoutDuration ≠ 0 then override.Security.LockoutDuration else base.Security.LockoutDuration } }

/-- Message of the timeout range violation (config.go line 247). -/
def timeoutMsg : String := "timeout must be between 1 and 60 seconds"

/-- Message of the retry-attempts range violation (config.go line 250). -/
def retryMsg : String := "retry_attempts must be between 1 and 10"

/-- Message of the empty-socket-path violation (config.go line 253). -/
def socketEmptyMsg : String := "socket_path must not be empty"

/-- Message of the non-absolute-socket-path violation (config.go line 255). -/
def socketAbsMsg : String := "socket_path must be an absolute path"

/-- Message of the log-level enumeration violation (config.go line 261). -/
def logLevelMsg : String := "log_level must be DEBUG, INFO, WARN, or ERROR"

/-- Message of the log-format enumeration violation (config.go line 265). -/
def logFormatMsg : String := "log_format must be \x27json\x27 or \x27text\x27"

/-- Message of the volume range violation (config.go line 270). -/
def volumeMsg : String := "audio_volume must be between 0 and 100"

/-- Message of the missing success-sound file violation (config.go line 275). -/
def soundSuccessMsg (p : String) : String := "custom_sound_success file not found: " ++ p

/-- Message of the missing failure-sound file violation (config.go line 280). -/
def soundFailureMsg (p : String) : String := "custom_sound_failure file not found: " ++ p

/-- Message of the match-threshold range violation (config.go line 286). -/
def thresholdMsg : String := "match_threshold must be between 0.0 and 1.0"

/-- Message of the max-auth-attempts range violation (config.go line 289). -/
def maxAuthMsg : String := "max_auth_attempts must be between 1 and 20"

/-- Message of the lockout-duration range violation (config.go line 292). -/
def lockoutMsg : String := "lockout_duration must be between 0 and 3600"

/-- The first character sequence is a leading segment of the second.
Several core string functions are defined by well-founded recursion, which
blocks kernel reduction, so the string operations the source needs are
implemented here structurally over character lists; on the ASCII data of
this subsystem this coincides with the byte-level semantics of Go. -/
def charsLeadWith : List Char → List Char → Bool
  | [], _ => true
  | _ :: _, [] => false
  | a :: as, b :: bs => a = b && charsLeadWith as bs

/-- Go strings.HasPrefix. -/
def strLeadsWith (pre s : String) : Bool := charsLeadWith pre.toList s.toList

/-- Go strings.ToUpper restricted to ASCII letters, per character. -/
def asciiUpper (c : Char) : Char :=
  if 'a' ≤ c ∧ c ≤ 'z' then Char.ofNat (c.toNat - 32) else c

/-- Go strings.ToLower restricted to ASCII letters, per character. -/
def asciiLower (c : Char) : Char :=
  if 'A' ≤ c ∧ c ≤ 'Z' then Char.ofNat (c.toNat + 32) else c

/-- Go strings.ToUpper on the ASCII strings of this subsystem. -/
def strToUpper (s : String) : String := String.mk (s.toList.map asciiUpper)

/-- Go strings.ToLower on the ASCII strings of this subsystem. -/
def strToLower (s : String) : String := String.mk (s.toList.map asciiLower)

/-- Split a character list at every occurrence of the separator character. -/
def splitCharAux (sep : Char) : List Char → List Char → List String
  | [], acc => [String.mk acc.reverse]
  | c :: rest, acc =>
    if c = sep then String.mk acc.reverse :: splitCharAux sep rest []
    else splitCharAux sep rest (c :: acc)

/-- Go strings.Split on a one-character separator, as used by the lexical
path cleaning. -/
def splitChar (sep : Char) (s : String) : List String := splitCharAux sep s.toList []

/-- Drop the first n characters of a string. -/
def strDrop (s : String) (n : Nat) : String := String.mk (s.toList.drop n)

/-- filepath.IsAbs on a Unix platform: the path starts with a slash. -/
def goIsAbs (p : String) : Bool := strLeadsWith "/" p

/-- Error list accumulated by Config.Validate (config.go lines 242-293).
The Go method appends to errs under each condition in source order; the
sequence of conditional appends is rendered as a concatenation of
conditional singleton lists, in the same order.  statOk p models
os.Stat(p) succeeding. -/
def validateErrors (statOk : String → Bool) (c : Config) : List String :=
  (if c.Service.Timeout ≤ 0 ∨ 60 < c.Service.Timeout then [timeoutMsg] else []) ++
  (if c.Service.RetryAttempts < 1 ∨ 10 < c.Service.RetryAttempts then [retryMsg] else []) ++
  (if c.Service.SocketPath = "" then [socketEmptyMsg]
   else if ¬ goIsAbs c.Service.SocketPath then [socketAbsMsg] else []) ++
  (if ¬ (["DEBUG", "INFO", "WARN", "ERROR"].contains (strToUpper c.Logging.Level)) then [logLevelMsg] else []) ++
  (if ¬ (["json", "text"].contains (strToLower c.Logging.Format)) then [logFormatMsg] else []) ++
  (if c.Audio.Volume < 0 ∨ 100 < c.Audio.Volume then [volumeMsg] else []) ++
  (if c.Audio.CustomSoundSuccess ≠ "" ∧ ¬ statOk c.Audio.CustomSoundSuccess then [soundSuccessMsg c.Audio.CustomSoundSuccess] else []) ++
  (if c.Audio.CustomSoundFailure ≠ "" ∧ ¬ statOk c.Audio.CustomSoundFailure then [soundFailureMsg c.Audio.CustomSoundFailure] else []) ++
  (if c.Security.MatchThreshold < 0 ∨ 1 < c.Security.MatchThreshold then [thresholdMsg] else []) ++
  (if c.Security.MaxAuthAttempts < 1 ∨ 20 < c.Security.MaxAuthAttempts then [maxAuthMsg] else []) ++
  (if c.Security.LockoutDuration < 0 ∨ 3600 < c.Security.LockoutDuration then [lockoutMsg] else [])

/-- Config.Validate (config.go lines 242-300): nil on success, otherwise
errors.Join over the collected violations, modelled as an optional error
list (none is the nil error). -/
def Validate (statOk : String → Bool) (c : Config) : Option (List String) :=
  if validateErrors statOk c = [] then none else some (validateErrors statOk c)

/-- The message of errors.Join: the joined error messages separated by newlines. -/
def joinedErrors (errs : List String) : String := String.intercalate "\n" errs

/-- Element stack of the lexical path cleaning of Go path/filepath.Clean:
empty and dot elements are dropped, a dot-dot element pops the previous
element, at the root a surplus dot-dot is dropped, and in a relative path
a surplus dot-dot is kept. -/
def cleanParts (rooted : Bool) (parts : List String) : List String :=
  (parts.foldl (fun acc p =>
    if p = "" ∨ p = "." then acc
    else if p = ".." then
      match acc with
      | [] => if rooted then [] else [".."]
      | a :: rest => if a = ".." then p :: acc else rest
    else p :: acc) []).reverse

/-- Go path/filepath.Clean for Unix paths: the lexical shortest equivalent
path, a dot for an empty result, and a single slash for an empty rooted
result. -/
def goPathClean (path : String) : String :=
  if path = "" then "."
  else
    let rooted := strLeadsWith "/" path
    let s := String.intercalate "/" (cleanParts rooted (splitChar '/' path))
    if rooted then "/" ++ s
    else if s = "" then "." else s

/-- Go path/filepath.Join restricted to two elements, as used by the source:
empty elements are skipped and the slash-joined result is cleaned. -/
def goFilepathJoin (a b : String) : String :=
  if a ≠ "" then goPathClean (a ++ "/" ++ b)
  else if b ≠ "" then goPathClean b
  else ""

/-- The opening curly bracket character. -/
def openBraceChar : Char := Char.ofNat 123

/-- The closing curly bracket character. -/
def closeBraceChar : Char := Char.ofNat 125

/-- Characters naming special shell parameters (helper isShellSpecialVar of
os.Expand). -/
def isShellSpecialVar (c : Char) : Bool :=
  c = '*' || c = '#' || c = '$' || c = '@' || c = '!' || c = '?' || c = '-' ||
    ('0' ≤ c && c ≤ '9')

/-- Underscore, digit or letter (helper isAlphaNum of os.Expand). -/
def isAlphaNum (c : Char) : Bool :=
  c = '_' || ('0' ≤ c && c ≤ '9') || ('a' ≤ c && c ≤ 'z') || ('A' ≤ c && c ≤ 'Z')

/-- Scan to the closing bracket of a bracket-delimited variable reference
(the loop inside the getShellName helper of os.Expand). -/
def braceScan (rest : List Char) : String × Nat :=
  match rest.findIdx? (· == closeBraceChar) with
  | some 0 => ("", 2)
  | some j => (String.mk (rest.take j), j + 2)
  | none => ("", 1)

/-- The getShellName helper of os.Expand: the variable name referenced at
the start of the character sequence, and the number of characters consumed. -/
def getShellName (l : List Char) : String × Nat :=
  match l with
  | [] => ("", 0)
  | c :: rest =>
    if c = openBraceChar then
      match rest with
      | a :: b :: _ =>
        if isShellSpecialVar a && b = closeBraceChar then (String.mk [a], 3)
        else braceScan rest
      | _ => braceScan rest
    else if isShellSpecialVar c then (String.mk [c], 1)
    else
      let nm := l.takeWhile isAlphaNum
      (String.mk nm, nm.length)

/-- The scanning loop of os.Expand over the character sequence, with
explicit fuel; the Go loop advances at least one position per iteration, so
fuel equal to the length of the sequence always suffices.  A dollar that is
the last character, or one followed by a character that starts no name, is
kept verbatim; a syntactically invalid reference is consumed and dropped;
a named reference is replaced by the value the mapping gives the name. -/
def goExpandAux (env : String → String) : Nat → List Char → List Char
  | _, [] => []
  | 0, l => l
  | fuel + 1, c :: rest =>
    if c = '$' ∧ rest ≠ [] then
      let sh := getShellName rest
      if sh.1 = "" ∧ sh.2 ≠ 0 then goExpandAux env fuel (rest.drop sh.2)
      else if sh.1 = "" then c :: goExpandAux env fuel rest
      else (env sh.1).toList ++ goExpandAux env fuel (rest.drop sh.2)
    else c :: goExpandAux env fuel rest

/-- os.ExpandEnv: expand variable references using the process environment;
os.Getenv reads an unset variable as the empty string. -/
def goExpandEnv (env : String → String) (s : String) : String :=
  String.mk (goExpandAux env s.length s.toList)

/-- expandPath (config.go lines 303-312): a leading tilde is replaced by the
home directory via filepath.Join, then environment variables are expanded.
home models os.UserHomeDir and env models os.Getenv. -/
def expandPath (env : String → String) (home : Except String String)
    (path : String) : Except String String :=
  if strLeadsWith "~" path then
    match home with
    | .error e => .error ("failed to get user home directory: " ++ e)
    | .ok h => .ok (goExpandEnv env (goFilepathJoin h (strDrop path 1)))
  else .ok (goExpandEnv env path)

/-- Load (config.go lines 111-144): defaults, then the system overlay if its
file exists, then the user overlay if its file exists, then validation.
readParse p dst models the internal loadFromPath helper reading file p and
yaml-unmarshalling it into dst. -/
def Load (env : String → String) (home : Except String String)
    (statOk : String → Bool)
    (readParse : String → Config → Except String Config) :
    Except String Config :=
  let cfg := DefaultConfig
  let step1 : Except String Config :=
    if statOk systemConfigPath then
      match readParse systemConfigPath zeroConfig with
      | .error e => .error ("failed to load system config: " ++ e)
      | .ok systemCfg => .ok (mergeConfigs cfg systemCfg)
    else .ok cfg
  match step1 with
  | .error e => .error e
  | .ok cfg1 =>
    match expandPath env home (goFilepathJoin "~" userConfigRelPath) with
    | .error e => .error ("failed to expand user config path: " ++ e)
    | .ok userConfigPath =>
      let step2 : Except String Config :=
        if statOk userConfigPath then
          match readParse userConfigPath zeroConfig with
          | .error e => .error ("failed to load user config: " ++ e)
          | .ok userCfg => .ok (mergeConfigs cfg1 userCfg)
        else .ok cfg1
      match step2 with
      | .error e => .error e
      | .ok cfg2 =>
        match Validate statOk cfg2 with
        | some errs => .error ("configuration validation failed: " ++ joinedErrors errs)
        | none => .ok cfg2

/-- LoadFromPath (config.go lines 148-165): the decode destination is the
default configuration, which yaml.Unmarshal fills in place; then the result
is validated. -/
def LoadFromPath (env : String → String) (home : Except String String)
    (statOk : String → Bool)
    (readParse : String → Config → Except String Config)
    (path : String) : Except String Config :=
  match expandPath env home path with
  | .error e => .error ("failed to expand path " ++ path ++ ": " ++ e)
  | .ok expandedPath =>
    match readParse expandedPath DefaultConfig with
    | .error e => .error ("failed to load config from " ++ expandedPath ++ ": " ++ e)
    | .ok cfg =>
      match Validate statOk cfg with
      | some errs => .error ("configuration validation failed: " ++ joinedErrors errs)
      | none => .ok cfg

/-- Go calls mergeConfigs with two Config pointers and returns the address
of result, a freshly allocated cell.  The store of Config cells is modelled
as a list, pointers as indices into it, and the returned cell is appended
at the end of the store. -/
def mergeConfigsHeap (σ : List Config) (b o : Fin σ.length) :
    List Config × Nat :=
  (σ ++ [mergeConfigs (σ.get b) (σ.get o)], σ.length)

/-- A configuration with a zero timeout and an out-of-range volume, every
other field valid. -/
def timeoutVolumeCfg : Config :=
  { Service := { Timeout := 0, RetryAttempts := 3, SocketPath := "/run/linux-wave/auth.sock" }
    Logging := { Level := "INFO", Format := "text" }
    Audio := { Enabled := true, Volume := 150, CustomSoundSuccess := "", CustomSoundFailure := "" }
    Security := { LivenessRequired := true, MatchThreshold := rat085, MaxAuthAttempts := 3, LockoutDuration := 300 } }

/-- A configuration naming two custom sound files, every other field valid. -/
def missingSoundsCfg : Config :=
  { Service := { Timeout := 10, RetryAttempts := 3, SocketPath := "/run/linux-wave/auth.sock" }
    Logging := { Level := "INFO", Format := "text" }
    Audio := { Enabled := true, Volume := 50
               CustomSoundSuccess := "/tmp/success.wav"
               CustomSoundFailure := "/tmp/failure.wav" }
    Security := { LivenessRequired := true, MatchThreshold := rat085, MaxAuthAttempts := 3, LockoutDuration := 300 } }

/-- The decode action of a YAML document whose only key is
security.match_threshold with the value 1.5, unmarshalled into the
destination configuration: that one field is overwritten, every other
field keeps the value of the destination. -/
def parseThresholdOnly : String → Config → Except String Config :=
  fun _ dst => .ok { dst with Security := { dst.Security with MatchThreshold := rat15 } }

/-- The constant rat085 is the rational number 0.85. -/
theorem rat085_def : rat085 = 0.85 := by
  rw [rat085, Rat.mk'_eq_divInt, Rat.divInt_eq_div]; norm_num

/-- The constant rat15 is the rational number 1.5. -/
theorem rat15_def : rat15 = 1.5 := by
  rw [rat15, Rat.mk'_eq_divInt, Rat.divInt_eq_div]; norm_num

/-- C1: Validate applied to the Configuration returned by DefaultConfig does
not succeed: for every filesystem, it returns the aggregated error holding
exactly the log-format violation, because DefaultConfig assigns the value
"test" to Logging.Format. -/
theorem validate_default_config_reports_format (statOk : String → Bool) :
    Validate statOk DefaultConfig = some [logFormatMsg] := rfl

/-- C2: the Configuration returned by DefaultConfig carries the glossary
baseline value in every field except Logging.Format, which holds "test"
rather than "text". -/
theorem default_config_values :
    DefaultConfig.Service.Timeout = 10 ∧
    DefaultConfig.Service.RetryAttempts = 3 ∧
    DefaultConfig.Service.SocketPath = "/run/linux-wave/auth.sock" ∧
    DefaultConfig.Logging.Level = "INFO" ∧
    DefaultConfig.Logging.Format = "test" ∧
    DefaultConfig.Logging.Format ≠ "text" ∧
    DefaultConfig.Audio.Enabled = true ∧
    DefaultConfig.Audio.Volume = 50 ∧
    DefaultConfig.Audio.CustomSoundSuccess = "" ∧
    DefaultConfig.Audio.CustomSoundFailure = "" ∧
    DefaultConfig.Security.LivenessRequired = true ∧
    DefaultConfig.Security.MatchThreshold = 0.85 ∧
    DefaultConfig.Security.MaxAuthAttempts = 3 ∧
    DefaultConfig.Security.LockoutDuration = 300 :=
  ⟨rfl, rfl, rfl, rfl, rfl, by decide, rfl, rfl, rfl, rfl, rfl, rat085_def, rfl, rfl⟩

/-- C3: Load with neither the system nor the user configuration file present
does not return the default Configuration: it fails with the validation
error on the default log format. -/
theorem load_without_config_files :
    Load (fun _ => "") (.ok "/home/alice") (fun _ => false) (fun _ dst => .ok dst) =
      .error ("configuration validation failed: " ++ logFormatMsg) ∧
    Load (fun _ => "") (.ok "/home/alice") (fun _ => false) (fun _ dst => .ok dst) ≠
      .ok DefaultConfig :=
  ⟨rfl, by decide⟩

/-- C4: mergeConfigs applies the per-field policy: a string, integer or
float field keeps the value of base when the value of override is the zero
value of the type and takes the value of override otherwise, and each of
the two boolean fields takes the value of override exactly when it differs
from the value of base. -/
theorem merge_configs_field_policy (base override : Config) :
    (mergeConfigs base override).Service.Timeout =
      (if override.Service.Timeout = 0 then base.Service.Timeout else override.Service.Timeout) ∧
    (mergeConfigs base override).Service.RetryAttempts =
      (if override.Service.RetryAttempts = 0 then base.Service.RetryAttempts else override.Service.RetryAttempts) ∧
    (mergeConfigs base override).Service.SocketPath =
      (if override.Service.SocketPath = "" then base.Service.SocketPath else override.Service.SocketPath) ∧
    (mergeConfigs base override).Logging.Level =
      (if override.Logging.Level = "" then base.Logging.Level else override.Logging.Level) ∧
    (mergeConfigs base override).Logging.Format =
      (if override.Logging.Format = "" then base.Logging.Format else override.Logging.Format) ∧
    (mergeConfigs base override).Audio.Enabled =
      (if override.Audio.Enabled ≠ base.Audio.Enabled then override.Audio.Enabled else base.Audio.Enabled) ∧
    (mergeConfigs base override).Audio.Volume =
      (if override.Audio.Volume = 0 then base.Audio.Volume else override.Audio.Volume) ∧
    (mergeConfigs base override).Audio.CustomSoundSuccess =
      (if override.Audio.CustomSoundSuccess = "" then base.Audio.CustomSoundSuccess else override.Audio.CustomSoundSuccess) ∧
    (mergeConfigs base override).Audio.CustomSoundFailure =
      (if override.Audio.CustomSoundFailure = "" then base.Audio.CustomSoundFailure else override.Audio.CustomSoundFailure) ∧
    (mergeConfigs base override).Security.LivenessRequired =
      (if override.Security.LivenessRequired ≠ base.Security.LivenessRequired then override.Security.LivenessRequired else base.Security.LivenessRequired) ∧
    (mergeConfigs base override).Security.MatchThreshold =
      (if override.Security.MatchThreshold = 0 then base.Security.MatchThreshold else override.Security.MatchThreshold) ∧
    (mergeConfigs base override).Security.MaxAuthAttempts =
      (if override.Security.MaxAuthAttempts = 0 then base.Security.MaxAuthAttempts else override.Security.MaxAuthAttempts) ∧
    (mergeConfigs base override).Security.LockoutDuration =
      (if override.Security.LockoutDuration = 0 then base.Security.LockoutDuration else override.Security.LockoutDuration) := by
  refine ⟨?_, ?_, ?_, ?_, ?_, ?_, ?_, ?_, ?_, ?_, ?_, ?_, ?_⟩ <;>
    simp only [mergeConfigs] <;> split_ifs <;> simp_all

/-- C5: Validate collects every constraint violation without
short-circuiting: whenever the timeout is zero and the volume is 150, the
returned aggregated error holds both the timeout violation and the volume
violation, whatever the rest of the Configuration. -/
theorem validate_reports_all_violations (statOk : String → Bool) (c : Config)
    (ht : c.Service.Timeout = 0) (hv : c.Audio.Volume = 150) :
    ∃ errs, Validate statOk c = some errs ∧ timeoutMsg ∈ errs ∧ volumeMsg ∈ errs := by
  have hmem1 : timeoutMsg ∈ validateErrors statOk c := by simp [validateErrors, ht]
  have hmem2 : volumeMsg ∈ validateErrors statOk c := by simp [validateErrors, hv]
  have hne : validateErrors statOk c ≠ [] := List.ne_nil_of_mem hmem1
  exact ⟨validateErrors statOk c, by simp [Validate, hne], hmem1, hmem2⟩

/-- Witness for C5 at a concrete configuration. -/
theorem validate_reports_all_violations_witness :
    ∃ errs, Validate (fun _ => true) timeoutVolumeCfg = some errs ∧
      timeoutMsg ∈ errs ∧ volumeMsg ∈ errs :=
  validate_reports_all_violations (fun _ => true) timeoutVolumeCfg rfl rfl

/-- C6: LoadFromPath on a file that sets only the match threshold to 1.5
fails validation with a message that names the log-format field in
addition to the match-threshold field, because the defaults underneath the
overlay carry the invalid format value "test". -/
theorem load_from_path_threshold_reports_two_fields :
    LoadFromPath (fun _ => "") (.ok "/home/alice") (fun _ => true) parseThresholdOnly
      "/etc/linux-wave/custom.yaml" =
      .error ("configuration validation failed: " ++ logFormatMsg ++ "\n" ++ thresholdMsg) := rfl

/-- C7: expandPath resolves a leading tilde against the home directory, and
an environment reference to an unset variable is replaced by the empty
string without error. -/
theorem expand_path_examples (env : String → String) (hF : env "FOO" = "") :
    expandPath env (.ok "/home/alice") "~/.config/linux-wave/config.yaml" =
      .ok "/home/alice/.config/linux-wave/config.yaml" ∧
    expandPath env (.ok "/home/alice") "/tmp/$FOO/x" = .ok "/tmp//x" := by
  refine ⟨rfl, ?_⟩
  show Except.ok (String.mk
    ('/' :: 't' :: 'm' :: 'p' :: '/' :: ((env "FOO").toList ++ ['/', 'x']))) =
    Except.ok "/tmp//x"
  rw [hF]
  rfl

/-- Witness for C7 at the everywhere-empty environment. -/
theorem expand_path_examples_witness :
    expandPath (fun _ => "") (.ok "/home/alice") "~/.config/linux-wave/config.yaml" =
      .ok "/home/alice/.config/linux-wave/config.yaml" ∧
    expandPath (fun _ => "") (.ok "/home/alice") "/tmp/$FOO/x" = .ok "/tmp//x" :=
  expand_path_examples (fun _ => "") rfl

/-- C8: for every Configuration with a non-empty custom sound path whose
file does not exist, Validate fails and the aggregated error names that
specific path. -/
theorem validate_reports_missing_sound_file (statOk : String → Bool) (c : Config) :
    (c.Audio.CustomSoundSuccess ≠ "" → statOk c.Audio.CustomSoundSuccess = false →
      ∃ errs, Validate statOk c = some errs ∧
        soundSuccessMsg c.Audio.CustomSoundSuccess ∈ errs) ∧
    (c.Audio.CustomSoundFailure ≠ "" → statOk c.Audio.CustomSoundFailure = false →
      ∃ errs, Validate statOk c = some errs ∧
        soundFailureMsg c.Audio.CustomSoundFailure ∈ errs) := by
  constructor
  · intro h1 h2
    have hmem : soundSuccessMsg c.Audio.CustomSoundSuccess ∈ validateErrors statOk c := by
      simp [validateErrors, h1, h2]
    exact ⟨validateErrors statOk c, by simp [Validate, List.ne_nil_of_mem hmem], hmem⟩
  · intro h1 h2
    have hmem : soundFailureMsg c.Audio.CustomSoundFailure ∈ validateErrors statOk c := by
      simp [validateErrors, h1, h2]
    exact ⟨validateErrors statOk c, by simp [Validate, List.ne_nil_of_mem hmem], hmem⟩

/-- Witness for C8 at a concrete configuration and empty filesystem. -/
theorem validate_reports_missing_sound_file_witness :
    (∃ errs, Validate (fun _ => false) missingSoundsCfg = some errs ∧
      soundSuccessMsg "/tmp/success.wav" ∈ errs) ∧
    (∃ errs, Validate (fun _ => false) missingSoundsCfg = some errs ∧
      soundFailureMsg "/tmp/failure.wav" ∈ errs) :=
  ⟨(validate_reports_missing_sound_file (fun _ => false) missingSoundsCfg).1 (by decide) rfl,
   (validate_reports_missing_sound_file (fun _ => false) missingSoundsCfg).2 (by decide) rfl⟩

/-- C9: mergeConfigs allocates a fresh cell for its result: in the heap
model, every pre-existing cell including the two inputs keeps its value,
the store grows by one cell, the returned address is fresh (distinct from
both input addresses), and the fresh cell holds the merged configuration. -/
theorem merge_configs_heap_frame (σ : List Config) (b o : Fin σ.length) :
    (mergeConfigsHeap σ b o).1.take σ.length = σ ∧
    (mergeConfigsHeap σ b o).1.length = σ.length + 1 ∧
    (mergeConfigsHeap σ b o).2 = σ.length ∧
    (mergeConfigsHeap σ b o).2 ≠ b.val ∧
    (mergeConfigsHeap σ b o).2 ≠ o.val ∧
    (mergeConfigsHeap σ b o).1.getLast? = some (mergeConfigs (σ.get b) (σ.get o)) := by
  refine ⟨?_, ?_, rfl, ?_, ?_, ?_⟩
  · simp [mergeConfigsHeap]
  · simp [mergeConfigsHeap]
  · have hb := b.isLt
    simp only [mergeConfigsHeap]
    omega
  · have ho := o.isLt
    simp only [mergeConfigsHeap]
    omega
  · simp [mergeConfigsHeap]

/-- C10: mergeConfigs is idempotent on equal arguments: merging a
Configuration with itself returns it unchanged in every field. -/
theorem merge_configs_idempotent (c : Config) : mergeConfigs c c = c := by
  simp [mergeConfigs]

end LinuxWave
